import Mathlib

/-!
Shallow embedding of `set_groq_model.py`, a configuration-bootstrap utility
that fetches the list of models served by a remote endpoint, intersects it
with a fixed ordered preference list, and writes the chosen identifier into
the process environment.

The embedding follows the Python source:
  - JSON values parsed by `json.load` become the inductive `Json`; Python
    truthiness on such values becomes `pyTruthy`.
  - `fetch_available_models` (its pure extraction step, after the body has
    been parsed) becomes `fetch_extract`; Python exceptions raised during
    extraction (calling `.get` on a non-dict, iterating a non-iterable)
    become `Except.error`.
  - `select_compatible_model` becomes `select_compatible_model` over string
    lists; `select_from` generalises the scanned preference list, and
    `select_compatible_modelJ` is the same scan as `main` actually performs,
    over raw extracted JSON values (Python `model in available` compares a
    string against arbitrary values, matching only equal strings).
  - The process environment becomes `Env`, a total map from names to
    optional string values; `ensure_env_model` returns the new environment
    together with a flag telling whether a write was performed (`true`) or
    the no-change case was logged (`false`).
  - `main`, wrapped by the `__main__` handler that turns any exception into
    exit status 1, becomes `runMain`, returning a `RunResult` that records
    the exit status, the final environment, whether the fetch stage was
    reached, whether the applier stage was reached, and the error if any.
-/

/-- A JSON value as produced by `json.load`. Object fields are listed in
order; a parsed Python dict binds each key at most once. -/
inductive Json where
  | null : Json
  | bool : Bool → Json
  | num : Int → Json
  | str : String → Json
  | arr : List Json → Json
  | obj : List (String × Json) → Json

/-- Whether a `Json` value is a string (Python `isinstance(v, str)`). -/
def Json.isStr : Json → Bool
  | Json.str _ => true
  | _ => false

/-- Python truthiness of a value parsed from JSON (`if model.get("id")`). -/
def pyTruthy : Json → Bool
  | Json.null => false
  | Json.bool b => b
  | Json.num n => n != 0
  | Json.str s => s != ""
  | Json.arr xs => !xs.isEmpty
  | Json.obj fs => !fs.isEmpty

/-- Python `d.get(key)` on a parsed dict: the value bound to `key`, if any. -/
def dictGet (fields : List (String × Json)) (key : String) : Option Json :=
  (fields.find? (fun p => p.1 == key)).map (fun p => p.2)

/-- The body of the list comprehension of `fetch_available_models` for one
element of the iterated array: `model.get("id")` when
`isinstance(model, dict) and model.get("id")` holds, nothing otherwise. -/
def extractOne (m : Json) : Option Json :=
  match m with
  | Json.obj fs =>
      match dictGet fs "id" with
      | some v => if pyTruthy v then some v else none
      | none => none
  | _ => none

/-- The list comprehension of `fetch_available_models`:
`[model.get("id") for model in data if isinstance(model, dict) and model.get("id")]`. -/
def extractIds (xs : List Json) : List Json :=
  xs.filterMap extractOne

/-- The pure part of `fetch_available_models` applied to the parsed response
body: `data.get("data", [])` followed by the `extractIds` comprehension.
`.get` on a non-dict raises `AttributeError`; iterating a number, boolean or
null raises `TypeError`; iterating a string yields characters and iterating a
dict yields its keys, neither of which is a dict, so both give `[]`. -/
def fetch_extract (payload : Json) : Except String (List Json) :=
  match payload with
  | Json.obj fields =>
      match dictGet fields "data" with
      | none => Except.ok []
      | some (Json.arr xs) => Except.ok (extractIds xs)
      | some (Json.str _) => Except.ok []
      | some (Json.obj _) => Except.ok []
      | some _ => Except.error "TypeError"
  | _ => Except.error "AttributeError"

/-- `SUPPORTED_MODELS`, the fixed preference list, highest priority first. -/
def SUPPORTED_MODELS : List String :=
  ["llama-3.3-70b-versatile", "llama-3.1-8b-instant", "qwen/qwen3-32b"]

/-- The scan of `select_compatible_model`, generalised over the preference
list it walks: the first entry of `supported` that is a member of
`available`. -/
def select_from (supported available : List String) : Option String :=
  supported.find? (fun m => available.contains m)

/-- `select_compatible_model`: the first entry of `SUPPORTED_MODELS` present
in the available list. -/
def select_compatible_model (available : List String) : Option String :=
  select_from SUPPORTED_MODELS available

/-- Python `m in available` where `m` is a string and `available` holds the
raw extracted JSON values: `==` matches only an equal string. -/
def strMatches (m : String) : Json → Bool
  | Json.str s => m == s
  | _ => false

/-- The selector scan as `main` actually performs it, over the raw values
returned by the extraction step. -/
def select_compatible_modelJ (available : List Json) : Option String :=
  SUPPORTED_MODELS.find? (fun m => available.any (strMatches m))

/-- The process environment: a total map from variable names to optional
string values. -/
abbrev Env := String → Option String

/-- `os.getenv`. -/
def getenv (env : Env) (key : String) : Option String :=
  env key

/-- `os.environ[key] = val`. -/
def setenv (env : Env) (key val : String) : Env :=
  fun k => if k = key then some val else env k

/-- `ensure_env_model`: read `GROQ_CHAT_MODEL`; if it already equals the
chosen name, log and return (flag `false`); otherwise write it (flag
`true`). -/
def ensure_env_model (model_name : String) (env : Env) : Env × Bool :=
  if getenv env "GROQ_CHAT_MODEL" = some model_name then
    (env, false)
  else
    (setenv env "GROQ_CHAT_MODEL" model_name, true)

/-- The failure a run can end with, as the `__main__` handler logs it. -/
inductive RunError where
  | missingCredential : RunError
  | fetchFailure : String → RunError
  | noCompatibleModel : List String → List Json → RunError

/-- Outcome of one run of the script: exit status, final environment,
whether the fetch stage was reached, whether the applier stage was reached,
and the error logged by the `__main__` handler, if any. -/
structure RunResult where
  exitCode : Nat
  env : Env
  fetchAttempted : Bool
  applierInvoked : Bool
  error : Option RunError

/-- `main` composed with the `__main__` wrapper, for a run in which the
network delivers a body that parses to `response`. `if not api_key` is
falsy both for an unset variable and for the empty string. -/
def runMain (env : Env) (response : Json) : RunResult :=
  match getenv env "GROQ_API_KEY" with
  | none =>
      { exitCode := 1, env := env, fetchAttempted := false,
        applierInvoked := false, error := some RunError.missingCredential }
  | some apiKey =>
      if apiKey = "" then
        { exitCode := 1, env := env, fetchAttempted := false,
          applierInvoked := false, error := some RunError.missingCredential }
      else
        match fetch_extract response with
        | Except.error e =>
            { exitCode := 1, env := env, fetchAttempted := true,
              applierInvoked := false, error := some (RunError.fetchFailure e) }
        | Except.ok available =>
            match select_compatible_modelJ available with
            | none =>
                { exitCode := 1, env := env, fetchAttempted := true,
                  applierInvoked := false,
                  error := some (RunError.noCompatibleModel SUPPORTED_MODELS available) }
            | some chosen =>
                { exitCode := 0, env := (ensure_env_model chosen env).1,
                  fetchAttempted := true, applierInvoked := true, error := none }

theorem select_from_cons (p : String) (ps available : List String) :
    select_from (p :: ps) available =
      if p ∈ available then some p else select_from ps available := by
  by_cases h : p ∈ available <;> simp [select_from, List.find?, h]

theorem select_from_first (available : List String) :
    ∀ prefs : List String, (∃ m, m ∈ prefs ∧ m ∈ available) →
      ∃ pre m post, prefs = pre ++ m :: post ∧
        select_from prefs available = some m ∧ m ∈ available ∧
        ∀ x ∈ pre, x ∉ available := by
  intro prefs
  induction prefs with
  | nil =>
      rintro ⟨m, hm, -⟩
      exact absurd hm (List.not_mem_nil m)
  | cons p ps ih =>
      intro h
      by_cases hp : p ∈ available
      · refine ⟨[], p, ps, rfl, ?_, hp, by simp⟩
        rw [select_from_cons]
        simp [hp]
      · have h2 : ∃ m, m ∈ ps ∧ m ∈ available := by
          obtain ⟨m, hm, hma⟩ := h
          rcases List.mem_cons.mp hm with rfl | hmem
          · exact absurd hma hp
          · exact ⟨m, hmem, hma⟩
        obtain ⟨pre, m, post, heq, hsel, hma, hpre⟩ := ih h2
        refine ⟨p :: pre, m, post, by rw [heq, List.cons_append], ?_, hma, ?_⟩
        · rw [select_from_cons]
          simp [hp, hsel]
        · intro x hx
          rcases List.mem_cons.mp hx with rfl | hmem
          · exact hp
          · exact hpre x hmem

/-- C1: for every available-models sequence containing at least one
preference-list entry, the selector scan returns the preference-list entry
with the lowest index in the preference list among those present in the
available sequence (all earlier preference entries are absent), independent
of positions in the available sequence; in particular, for preference list
["A", "B", "C"] and available ["C", "B"] it returns "B". -/
theorem C1_selector_lowest_pref_index (prefs available : List String)
    (h : ∃ m, m ∈ prefs ∧ m ∈ available) :
    (∃ pre m post, prefs = pre ++ m :: post ∧
        select_from prefs available = some m ∧ m ∈ available ∧
        ∀ x ∈ pre, x ∉ available) ∧
    select_from ["A", "B", "C"] ["C", "B"] = some "B" :=
  ⟨select_from_first available prefs h, by decide⟩

/-- C1 witness: the theorem applied to the preference list of the
specification scenario and the available sequence ["C", "B"]. -/
theorem C1_selector_lowest_pref_index_witness :
    (∃ pre m post, (["A", "B", "C"] : List String) = pre ++ m :: post ∧
        select_from ["A", "B", "C"] ["C", "B"] = some m ∧
        m ∈ (["C", "B"] : List String) ∧
        ∀ x ∈ pre, x ∉ (["C", "B"] : List String)) ∧
    select_from ["A", "B", "C"] ["C", "B"] = some "B" :=
  C1_selector_lowest_pref_index ["A", "B", "C"] ["C", "B"]
    ⟨"B", by decide, by decide⟩

/-- C2: for every available-models sequence disjoint from the preference
list, including the empty sequence, select_compatible_model returns none. -/
theorem C2_selector_disjoint_none (available : List String)
    (h : ∀ m, m ∈ SUPPORTED_MODELS → m ∉ available) :
    select_compatible_model available = none := by
  unfold select_compatible_model select_from
  rw [List.find?_eq_none]
  intro x hx
  simp [h x hx]

/-- C2 witness: the theorem applied to an available sequence sharing nothing
with the preference list. -/
theorem C2_selector_disjoint_none_witness :
    select_compatible_model ["X", "Y"] = none :=
  C2_selector_disjoint_none ["X", "Y"] (by decide)

/-- C3: whenever select_compatible_model returns a value, that value is a
member of both SUPPORTED_MODELS and the given available sequence. -/
theorem C3_selected_member_of_both (available : List String) (m : String)
    (h : select_compatible_model available = some m) :
    m ∈ SUPPORTED_MODELS ∧ m ∈ available := by
  unfold select_compatible_model select_from at h
  refine ⟨List.mem_of_find?_eq_some h, ?_⟩
  have hc := List.find?_some h
  simpa using hc

/-- C3 witness: the theorem applied to a one-element available sequence. -/
theorem C3_selected_member_of_both_witness :
    "llama-3.1-8b-instant" ∈ SUPPORTED_MODELS ∧
    "llama-3.1-8b-instant" ∈ (["llama-3.1-8b-instant"] : List String) :=
  C3_selected_member_of_both ["llama-3.1-8b-instant"] "llama-3.1-8b-instant"
    (by decide)

/-- C4: the applier is idempotent. After one call the setting
GROQ_CHAT_MODEL equals the chosen identifier, and a second call with the
same identifier returns the environment unchanged with the no-write flag. -/
theorem C4_applier_idempotent (name : String) (env : Env) :
    getenv (ensure_env_model name env).1 "GROQ_CHAT_MODEL" = some name ∧
    ensure_env_model name (ensure_env_model name env).1 =
      ((ensure_env_model name env).1, false) := by
  by_cases h : getenv env "GROQ_CHAT_MODEL" = some name
  · simp [ensure_env_model, h]
  · have h1 : getenv (setenv env "GROQ_CHAT_MODEL" name) "GROQ_CHAT_MODEL"
        = some name := by
      simp [getenv, setenv]
    simp [ensure_env_model, h, h1]

/-- C8: when the current value of GROQ_CHAT_MODEL already equals the chosen
identifier, the applier returns the environment itself, entirely unchanged,
with the no-write flag (only the no-op is logged). -/
theorem C8_applier_noop_when_set (name : String) (env : Env)
    (h : getenv env "GROQ_CHAT_MODEL" = some name) :
    ensure_env_model name env = (env, false) := by
  simp [ensure_env_model, h]

/-- C8 witness: the theorem applied to an environment whose setting already
holds the top preference entry. -/
theorem C8_applier_noop_when_set_witness :
    ensure_env_model "llama-3.3-70b-versatile"
        (fun k => if k = "GROQ_CHAT_MODEL"
                  then some "llama-3.3-70b-versatile" else none) =
      ((fun k => if k = "GROQ_CHAT_MODEL"
                 then some "llama-3.3-70b-versatile" else none : Env), false) :=
  C8_applier_noop_when_set "llama-3.3-70b-versatile" _ (by simp [getenv])

/-- C6: when GROQ_API_KEY is unset, the run fails with the missing
credential error before the fetch stage is reached, with exit status 1. -/
theorem C6_missing_credential_fatal (env : Env) (response : Json)
    (h : getenv env "GROQ_API_KEY" = none) :
    (runMain env response).fetchAttempted = false ∧
    (runMain env response).error = some RunError.missingCredential ∧
    (runMain env response).exitCode = 1 := by
  simp [runMain, h]

/-- C6 witness: the theorem applied to the empty environment. -/
theorem C6_missing_credential_fatal_witness :
    (runMain (fun _ => none) (Json.obj [])).fetchAttempted = false ∧
    (runMain (fun _ => none) (Json.obj [])).error
      = some RunError.missingCredential ∧
    (runMain (fun _ => none) (Json.obj [])).exitCode = 1 :=
  C6_missing_credential_fatal (fun _ => none) (Json.obj []) rfl

/-- C9: a GROQ_API_KEY set to the empty string is treated exactly like an
unset one: the run fails before the fetch stage with the same missing
credential error and exit status 1. -/
theorem C9_empty_credential_fatal (env : Env) (response : Json)
    (h : getenv env "GROQ_API_KEY" = some "") :
    (runMain env response).fetchAttempted = false ∧
    (runMain env response).error = some RunError.missingCredential ∧
    (runMain env response).exitCode = 1 := by
  simp [runMain, h]

/-- C9 witness: the theorem applied to an environment binding the credential
to the empty string. -/
theorem C9_empty_credential_fatal_witness :
    (runMain (fun k => if k = "GROQ_API_KEY" then some "" else none)
        (Json.obj [])).fetchAttempted = false ∧
    (runMain (fun k => if k = "GROQ_API_KEY" then some "" else none)
        (Json.obj [])).error = some RunError.missingCredential ∧
    (runMain (fun k => if k = "GROQ_API_KEY" then some "" else none)
        (Json.obj [])).exitCode = 1 :=
  C9_empty_credential_fatal _ (Json.obj []) (by simp [getenv])

theorem runMain_applier_exit_zero (env : Env) (response : Json) :
    (runMain env response).applierInvoked = true →
      (runMain env response).exitCode = 0 := by
  unfold runMain
  split
  · simp
  · split
    · simp
    · split
      · simp
      · split
        · simp
        · simp

/-- C7: a run whose selector stage finds no compatible model fails with an
error naming both the full preference list and the full available sequence,
never reaches the applier stage, and exits with status 1; conversely every
run that reaches the applier stage exits with status 0. -/
theorem C7_no_compatible_model_fatal (env : Env) (response : Json)
    (k : String) (available : List Json)
    (hk : getenv env "GROQ_API_KEY" = some k) (hne : ¬ k = "")
    (hf : fetch_extract response = Except.ok available)
    (hs : select_compatible_modelJ available = none) :
    (runMain env response).exitCode = 1 ∧
    (runMain env response).applierInvoked = false ∧
    (runMain env response).error
      = some (RunError.noCompatibleModel SUPPORTED_MODELS available) ∧
    ∀ (env2 : Env) (resp2 : Json),
      (runMain env2 resp2).applierInvoked = true →
        (runMain env2 resp2).exitCode = 0 := by
  refine ⟨?_, ?_, ?_, fun env2 resp2 => runMain_applier_exit_zero env2 resp2⟩
    <;> simp [runMain, hk, hne, hf, hs]

/-- C7 witness: the theorem applied to an environment holding a credential
and a payload listing only the model "X", which matches no preference. -/
theorem C7_no_compatible_model_fatal_witness :
    (runMain (fun k => if k = "GROQ_API_KEY" then some "gsk-test" else none)
        (Json.obj [("data", Json.arr [Json.obj [("id", Json.str "X")]])])).exitCode = 1 ∧
    (runMain (fun k => if k = "GROQ_API_KEY" then some "gsk-test" else none)
        (Json.obj [("data", Json.arr [Json.obj [("id", Json.str "X")]])])).applierInvoked = false ∧
    (runMain (fun k => if k = "GROQ_API_KEY" then some "gsk-test" else none)
        (Json.obj [("data", Json.arr [Json.obj [("id", Json.str "X")]])])).error
      = some (RunError.noCompatibleModel SUPPORTED_MODELS [Json.str "X"]) ∧
    ∀ (env2 : Env) (resp2 : Json),
      (runMain env2 resp2).applierInvoked = true →
        (runMain env2 resp2).exitCode = 0 :=
  C7_no_compatible_model_fatal _ _ "gsk-test" [Json.str "X"]
    (by simp [getenv]) (by decide) rfl rfl

/-- C10: when the parsed response body is a mapping with no data field, the
fetch stage returns the empty sequence without error, and a run with a
credential set ends with the no-compatible-model error and exit status 1
rather than a parse error. -/
theorem C10_missing_data_field_empty (fields : List (String × Json))
    (env : Env) (k : String)
    (hd : dictGet fields "data" = none)
    (hk : getenv env "GROQ_API_KEY" = some k) (hne : ¬ k = "") :
    fetch_extract (Json.obj fields) = Except.ok [] ∧
    (runMain env (Json.obj fields)).error
      = some (RunError.noCompatibleModel SUPPORTED_MODELS []) ∧
    (runMain env (Json.obj fields)).exitCode = 1 := by
  have hf : fetch_extract (Json.obj fields) = Except.ok [] := by
    simp [fetch_extract, hd]
  have hs : select_compatible_modelJ [] = none := rfl
  exact ⟨hf, by simp [runMain, hk, hne, hf, hs], by simp [runMain, hk, hne, hf, hs]⟩

/-- C10 witness: the theorem applied to a payload carrying only an unrelated
field. -/
theorem C10_missing_data_field_empty_witness :
    fetch_extract (Json.obj [("object", Json.str "list")]) = Except.ok [] ∧
    (runMain (fun k => if k = "GROQ_API_KEY" then some "gsk-test" else none)
        (Json.obj [("object", Json.str "list")])).error
      = some (RunError.noCompatibleModel SUPPORTED_MODELS []) ∧
    (runMain (fun k => if k = "GROQ_API_KEY" then some "gsk-test" else none)
        (Json.obj [("object", Json.str "list")])).exitCode = 1 :=
  C10_missing_data_field_empty [("object", Json.str "list")] _ "gsk-test"
    rfl (by simp [getenv]) (by decide)

/-- Following the words of the spec: an entry of the data array is kept when
it is mapping-typed and carries a truthy identifier field. -/
def isKeptEntry (m : Json) : Bool :=
  match m with
  | Json.obj fs =>
      match dictGet fs "id" with
      | some v => pyTruthy v
      | none => false
  | _ => false

/-- The identifier field of a mapping entry, if any. -/
def entryId (m : Json) : Option Json :=
  match m with
  | Json.obj fs => dictGet fs "id"
  | _ => none

/-- Following the words of the spec for the Fetcher: in the order the
entries appear in the data array, exactly the identifier values of the kept
entries. -/
def spec_extract (xs : List Json) : List Json :=
  (xs.filter isKeptEntry).filterMap entryId

theorem extractOne_eq (x : Json) :
    extractOne x = if isKeptEntry x then entryId x else none := by
  cases x <;> simp [extractOne, isKeptEntry, entryId]
  case obj fs =>
    cases hid : dictGet fs "id" with
    | none => simp
    | some v => by_cases hv : pyTruthy v <;> simp [hv]

theorem extractIds_eq_spec_extract (xs : List Json) :
    extractIds xs = spec_extract xs := by
  induction xs with
  | nil => rfl
  | cons x xs ih =>
      simp only [extractIds, spec_extract, List.filterMap_cons,
        List.filter_cons] at *
      rw [extractOne_eq]
      by_cases hk : isKeptEntry x
      · simp only [hk, if_true, ite_true]
        cases he : entryId x <;> simp [he, ih]
      · simp [hk, ih]

/-- C5 counterexample: the claim that the returned sequence always consists
of strings fails. For the payload whose data array holds the single entry
with identifier field 5, the extraction succeeds and returns the value 5,
which is not a string (the code never checks the type of the identifier). -/
theorem C5_fetch_returns_ids_counterexample :
    fetch_extract (Json.obj [("data", Json.arr [Json.obj [("id", Json.num 5)]])])
      = Except.ok [Json.num 5] ∧
    Json.isStr (Json.num 5) = false :=
  ⟨rfl, rfl⟩

/-- C5 (amended): for every parsed payload that is a mapping whose data
field is an array, the extraction succeeds and returns, in the order the
entries appear in that array, exactly the identifier values of the entries
that are mapping-typed and carry a truthy identifier field, skipping the
other entries without error; the returned values are strings provided the
identifier fields of the entries are strings. -/
theorem C5_fetch_returns_ids (fields : List (String × Json)) (xs : List Json)
    (h : dictGet fields "data" = some (Json.arr xs)) :
    fetch_extract (Json.obj fields) = Except.ok (spec_extract xs) ∧
    ((∀ e ∈ xs, ∀ v, entryId e = some v → Json.isStr v = true) →
      ∀ v ∈ spec_extract xs, Json.isStr v = true) := by
  constructor
  · have : fetch_extract (Json.obj fields) = Except.ok (extractIds xs) := by
      simp [fetch_extract, h]
    rw [this, extractIds_eq_spec_extract]
  · intro hall v hv
    obtain ⟨e, he, hev⟩ := List.mem_filterMap.mp hv
    exact hall e (List.mem_of_mem_filter he) v hev

/-- C5 witness: the theorem applied to a payload whose data array holds one
well-formed entry, one entry with an empty identifier, and one non-mapping
entry. -/
theorem C5_fetch_returns_ids_witness :
    fetch_extract (Json.obj [("data", Json.arr
        [Json.obj [("id", Json.str "llama-3.1-8b-instant")],
         Json.obj [("id", Json.str "")],
         Json.str "junk"])])
      = Except.ok (spec_extract
        [Json.obj [("id", Json.str "llama-3.1-8b-instant")],
         Json.obj [("id", Json.str "")],
         Json.str "junk"]) ∧
    ((∀ e ∈ [Json.obj [("id", Json.str "llama-3.1-8b-instant")],
             Json.obj [("id", Json.str "")],
             Json.str "junk"], ∀ v, entryId e = some v → Json.isStr v = true) →
      ∀ v ∈ spec_extract
        [Json.obj [("id", Json.str "llama-3.1-8b-instant")],
         Json.obj [("id", Json.str "")],
         Json.str "junk"], Json.isStr v = true) :=
  C5_fetch_returns_ids _ _ rfl
